import Mathlib

/-!
Verification of the kawaii.sh authentication code: the login handler
(`src/routes/auth.rs`, fn `basic`) and the role-guard middleware
(`src/util/auth.rs`, macro `define_auth!` and fn `get_auth_data`,
fn `create_jwt_string`), shallowly embedded in Lean 4.

External collaborators (the `jwt` HMAC-SHA256 sign/verify primitive, the
argon2 password-hash verifier, the datastore) are modelled as explicit
parameters or as abstract signed-token values, following the spec's
description of their interfaces.
-/

namespace Kawaii

/-- Modelled from the spec: the user role enumeration (`src/models/user.rs`
is not in the sources). The spec states it is a linearly ordered
enumeration, e.g. Guest < User < Admin; the code instantiates guards at
`UserRole::User` and `UserRole::Admin` and compares roles with `<`. -/
inductive UserRole
  | guest
  | user
  | admin
deriving DecidableEq

/-- Numeric access level realising the linear order Guest < User < Admin. -/
def UserRole.level : UserRole → Nat
  | .guest => 0
  | .user => 1
  | .admin => 2

instance : LT UserRole := ⟨fun a b => a.level < b.level⟩

instance : LE UserRole := ⟨fun a b => a.level ≤ b.level⟩

instance (a b : UserRole) : Decidable (a < b) :=
  inferInstanceAs (Decidable (a.level < b.level))

instance (a b : UserRole) : Decidable (a ≤ b) :=
  inferInstanceAs (Decidable (a.level ≤ b.level))

/-- Modelled from the spec: the user record (`src/models/user.rs` is not in
the sources): integer identifier, stored password hash, role. Only the
fields read by the embedded code are modelled. -/
structure UserData where
  id : Int
  password : String
  role : UserRole
deriving DecidableEq

/-- Modelled from the spec: `MessageResponse` (`src/models/mod.rs` is not in
the sources): a status code plus a message body. -/
structure MessageResponse where
  code : Nat
  message : String
deriving DecidableEq

/-- `MessageResponse::new(status, msg)`. -/
def MessageResponse.new (code : Nat) (message : String) : MessageResponse :=
  ⟨code, message⟩

/-- Modelled from the spec: `MessageResponse::unauthorized_error()` carries
HTTP status 401 (spec §7: unauthorized outcomes are 401). -/
def MessageResponse.unauthorized_error : MessageResponse :=
  ⟨401, "Unauthorized"⟩

/-- Modelled from the spec: `MessageResponse::internal_server_error()`
carries HTTP status 500 (spec §7: internal faults are 500). -/
def MessageResponse.internal_server_error : MessageResponse :=
  ⟨500, "Internal Server Error"⟩

/-- The registered claims of the `jwt` crate that this code sets or reads:
issuer, subject, expiration (the remaining registered claims default to
`None` and are never written or read by this code, so they are omitted).
The expiration is stored as a `u64` unix timestamp, modelled as `Nat`. -/
structure RegisteredClaims where
  issuer : Option String
  subject : Option String
  expiration : Option Nat
deriving DecidableEq

/-- Modelled from the spec: a JWT string as seen by the sign/verify
primitive over a shared symmetric key (HMAC-SHA256). A string either is
not a well-formed signed token, or it is the signing of a claim set under
some key; under the standard assumption that the MAC is unforgeable, the
claims and the signing key determine exactly which verifications succeed. -/
inductive JwtString
  | garbage (s : String)
  | signed (claims : RegisteredClaims) (key : String)
deriving DecidableEq

/-- Modelled from the spec: the `jwt` crate's `verify_with_key` for
`RegisteredClaims`: verify the token's signature against the symmetric
key and decode its claims; it performs signature and structure checks
only, no claims validation (in particular no expiry check — spec §4.2
step 2 and §9 record that no expiration check is visible in the flow). -/
def verify_with_key (tok : JwtString) (key : String) :
    Except Unit RegisteredClaims :=
  match tok with
  | .garbage _ => .error ()
  | .signed claims k => if k = key then .ok claims else .error ()

/-- The value of a decimal digit character, `none` on any other char. -/
def digitVal (c : Char) : Option Nat :=
  if '0' ≤ c ∧ c ≤ '9' then some (c.toNat - '0'.toNat) else none

/-- Accumulate the decimal value of a digit run; `none` on a non-digit. -/
def parseNatAux : List Char → Nat → Option Nat
  | [], acc => some acc
  | c :: cs, acc =>
    match digitVal c with
    | some dv => parseNatAux cs (acc * 10 + dv)
    | none => none

/-- Modelled from the spec: Rust `str::parse::<i32>()` as used on the
subject claim: an optional leading sign followed by at least one decimal
digit, rejected when malformed or out of the i32 range. -/
def parseI32 (s : String) : Except Unit Int :=
  let signed : Bool × List Char :=
    match s.data with
    | '-' :: rest => (true, rest)
    | '+' :: rest => (false, rest)
    | chars => (false, chars)
  match signed.2 with
  | [] => .error ()
  | ds =>
    match parseNatAux ds 0 with
    | none => .error ()
    | some n =>
      let v : Int := if signed.1 then -(n : Int) else (n : Int)
      if -(2 ^ 31) ≤ v ∧ v < 2 ^ 31 then .ok v else .error ()

/-- Modelled from the spec: the datastore interface read by this code:
`get_user_by_email` and `get_user_by_id`, each returning a user record or
failing. -/
structure Database where
  get_user_by_email : String → Except Unit UserData
  get_user_by_id : Int → Except Unit UserData

/-- Modelled from the spec: the process-wide `State` (`src/state.rs` is not
in the sources): the immutable symmetric signing key and the datastore
handle. -/
structure State where
  jwt_key : String
  database : Database

/-- An incoming HTTP request, abstracted to its cookie jar:
`req.cookie(name)` yields the cookie's value when present. -/
structure HttpRequest where
  cookie : String → Option JwtString

/-- Modelled from the spec: `BasicAuthForm` (`src/models/auth.rs` is not in
the sources): the JSON login body `{ email, password }`. -/
structure BasicAuthForm where
  email : String
  password : String

/-- A cookie as built by `http::Cookie::build` in `basic`: name, value and
the attributes the code sets (secure, http_only, path, expires). -/
structure Cookie where
  name : String
  value : JwtString
  secure : Bool
  http_only : Bool
  path : String
  expires : Int
deriving DecidableEq

/-- An HTTP response as produced by the login handler: status code, JSON
message body, and the optional `Set-Cookie`. -/
structure HttpResponseModel where
  status : Nat
  message : String
  cookie : Option Cookie
deriving DecidableEq

/-- `MessageResponse::http_response()`: a response carrying the message's
status and body and no cookie. -/
def MessageResponse.http_response (m : MessageResponse) : HttpResponseModel :=
  ⟨m.code, m.message, none⟩

/-- `create_jwt_string` from `src/util/auth.rs`: build `RegisteredClaims`
with issuer, subject = `id.to_string()`, expiration = `timestamp as u64`
(the i64-to-u64 cast wraps modulo 2^64), and sign them with the key. -/
def create_jwt_string (id : Int) (issuer : String) (timestamp : Int)
    (key : String) : Except Unit JwtString :=
  let claims : RegisteredClaims :=
    { issuer := some issuer
      subject := some (toString id)
      expiration := some ((timestamp % (2 ^ 64 : Int)).toNat) }
  .ok (.signed claims key)

/-- `get_auth_data` from `src/util/auth.rs`: read the `auth-token` cookie
(missing → unauthorized), verify it against the state's key (failure →
unauthorized), read and parse the subject claim (missing or unparseable →
internal error), and load the user by id (failure → internal error). -/
def get_auth_data (st : State) (req : HttpRequest) :
    Except MessageResponse UserData :=
  match req.cookie "auth-token" with
  | none => .error MessageResponse.unauthorized_error
  | some jwt_token =>
    match verify_with_key jwt_token st.jwt_key with
    | .error _ => .error MessageResponse.unauthorized_error
    | .ok claim =>
      match claim.subject with
      | none => .error MessageResponse.internal_server_error
      | some data =>
        match parseI32 data with
        | .error _ => .error MessageResponse.internal_server_error
        | .ok user_id =>
          match st.database.get_user_by_id user_id with
          | .error _ => .error MessageResponse.internal_server_error
          | .ok d => .ok d

/-- The body of the `FromRequest` impl generated by `define_auth!` for a
minimum role: run `get_auth_data`, propagate its error, reject with
`unauthorized_error` when the user's role is strictly below the required
role, otherwise hand the user record to the wrapped handler. -/
def define_auth (role_enum : UserRole) (st : State) (req : HttpRequest) :
    Except MessageResponse UserData :=
  match get_auth_data st req with
  | .error err => .error err
  | .ok user_data =>
    if user_data.role < role_enum then
      .error MessageResponse.unauthorized_error
    else
      .ok user_data

namespace middleware

/-- `define_auth!(User, UserRole::User)`. -/
def User : State → HttpRequest → Except MessageResponse UserData :=
  define_auth UserRole.user

/-- `define_auth!(Admin, UserRole::Admin)`. -/
def Admin : State → HttpRequest → Except MessageResponse UserData :=
  define_auth UserRole.admin

end middleware

/-- The login handler `basic` from `src/routes/auth.rs`. `verify_encoded`
is the external argon2 verification primitive (hash, password ↦ match or
computational error); `now` is the unix timestamp of `Utc::now()`
(`chrono::Duration::weeks(1)` is exactly 604800 seconds). -/
def basic (st : State) (verify_encoded : String → String → Except Unit Bool)
    (now : Int) (data : BasicAuthForm) : HttpResponseModel :=
  match st.database.get_user_by_email data.email with
  | .error _ =>
    (MessageResponse.new 400 "Invalid credentials provided!").http_response
  | .ok user_data =>
    match verify_encoded user_data.password data.password with
    | .error _ => MessageResponse.internal_server_error.http_response
    | .ok matched =>
      -- `matches` in the source; renamed because `matches` is a Lean keyword
      if !matched then
        (MessageResponse.new 400 "Invalid credentials provided!").http_response
      else
        let expire_time := now + 604800
        match create_jwt_string user_data.id "localhost" expire_time
            st.jwt_key with
        | .error _ => MessageResponse.internal_server_error.http_response
        | .ok jwt =>
          { status := 200
            message := "You have logged in"
            cookie := some
              { name := "auth-token"
                value := jwt
                secure := false
                http_only := true
                path := "/"
                expires := expire_time } }

/-- A datastore call, for the effect trace of the login handler. Write
and revocation-list operations are included in the alphabet so that their
absence from a trace is a statement, not a triviality. -/
inductive DbCall
  | readByEmail (email : String)
  | readById (id : Int)
  | write
  | revocationListAccess
deriving DecidableEq

/-- `basic` instrumented with a datastore-effect trace: the same branch
structure as `basic`, with the log extended at each datastore call site
(the lookup by email is the only one in the handler's body; no branch
performs a write or touches a revocation list). -/
def basicTrace (st : State)
    (verify_encoded : String → String → Except Unit Bool)
    (now : Int) (data : BasicAuthForm) : HttpResponseModel × List DbCall :=
  let log : List DbCall := [DbCall.readByEmail data.email]
  match st.database.get_user_by_email data.email with
  | .error _ =>
    ((MessageResponse.new 400 "Invalid credentials provided!").http_response,
      log)
  | .ok user_data =>
    match verify_encoded user_data.password data.password with
    | .error _ => (MessageResponse.internal_server_error.http_response, log)
    | .ok matched =>
      -- `matches` in the source; renamed because `matches` is a Lean keyword
      if !matched then
        ((MessageResponse.new 400
            "Invalid credentials provided!").http_response, log)
      else
        let expire_time := now + 604800
        match create_jwt_string user_data.id "localhost" expire_time
            st.jwt_key with
        | .error _ =>
          (MessageResponse.internal_server_error.http_response, log)
        | .ok jwt =>
          ({ status := 200
             message := "You have logged in"
             cookie := some
               { name := "auth-token"
                 value := jwt
                 secure := false
                 http_only := true
                 path := "/"
                 expires := expire_time } }, log)

/-! ## Witness fixtures and proof-support definitions -/

deriving instance DecidableEq for Except

/-- The tail of `get_auth_data` after a successful signature check, as a
function of the decoded subject claim: parse the subject (missing or
unparseable → internal error) and load the user (failure → internal
error). Factored out so that lemmas can speak about the part of the
guard that runs after verification. -/
def authLookup (st : State) (sub : Option String) :
    Except MessageResponse UserData :=
  match sub with
  | none => .error MessageResponse.internal_server_error
  | some data =>
    match parseI32 data with
    | .error _ => .error MessageResponse.internal_server_error
    | .ok user_id =>
      match st.database.get_user_by_id user_id with
      | .error _ => .error MessageResponse.internal_server_error
      | .ok d => .ok d

/-- Shared concrete user record for witnesses. -/
def exU : UserData := ⟨1, "hash", .user⟩

/-- Shared concrete state for witnesses: key `"k"`; the datastore knows
the single user `exU` under id 1 and resolves no email. -/
def exSt : State :=
  ⟨"k", ⟨fun _ => .error (), fun i => if i = 1 then .ok exU else .error ()⟩⟩

/-- Shared concrete request for witnesses: carries an `auth-token` cookie
signed with `exSt`'s key, subject `"1"`, expiration 7. -/
def exReq : HttpRequest :=
  ⟨fun n =>
    if n = "auth-token" then
      some (.signed ⟨some "localhost", some "1", some 7⟩ "k")
    else none⟩

/-- A request carrying no cookies at all. -/
def exReqNoCookie : HttpRequest := ⟨fun _ => none⟩

/-- A request whose `auth-token` cookie has the same issuer and subject
as `exReq` but a different expiration (3 instead of 7). -/
def exReq2 : HttpRequest :=
  ⟨fun n =>
    if n = "auth-token" then
      some (.signed ⟨some "localhost", some "1", some 3⟩ "k")
    else none⟩

/-- Shared concrete login state for witnesses: a datastore that resolves
every email to `exU`. -/
def exLoginSt : State :=
  ⟨"k", ⟨fun _ => .ok exU, fun _ => .error ()⟩⟩

/-- A concrete login form for witnesses. -/
def exForm : BasicAuthForm := ⟨"a@b.c", "pw"⟩

/-- A password verifier reporting a match. -/
def fvTrue : String → String → Except Unit Bool := fun _ _ => .ok true

/-- A password verifier reporting a mismatch. -/
def fvFalse : String → String → Except Unit Bool := fun _ _ => .ok false

/-- A password verifier failing with a computational error. -/
def fvErr : String → String → Except Unit Bool := fun _ _ => .error ()

/-! ## Shared helper lemmas -/

/-- On the role order, `¬ a < b` is `b ≤ a` (totality of the level order). -/
theorem UserRole.not_lt_iff (a b : UserRole) : ¬(a < b) ↔ b ≤ a :=
  Nat.not_lt

/-- Verifying a token against the very key it was signed with succeeds and
returns its claims. -/
theorem verify_signed_same_key (c : RegisteredClaims) (k : String) :
    verify_with_key (.signed c k) k = .ok c := by
  simp [verify_with_key]

/-- When `get_auth_data` yields a user, the generated guard reduces to the
role comparison on that user. -/
theorem define_auth_eq_of_auth_ok (R : UserRole) (st : State)
    (req : HttpRequest) (u : UserData) (h : get_auth_data st req = .ok u) :
    define_auth R st req =
      if u.role < R then .error MessageResponse.unauthorized_error
      else .ok u := by
  unfold define_auth
  rw [h]

/-- A request whose `auth-token` cookie is a token signed with the
state's own key runs the post-verification lookup on the token's
subject claim. -/
theorem get_auth_data_signed_eq (st : State) (r : HttpRequest)
    (claims : RegisteredClaims)
    (hr : r.cookie "auth-token" = some (.signed claims st.jwt_key)) :
    get_auth_data st r = authLookup st claims.subject := by
  unfold get_auth_data authLookup
  simp only [hr, verify_signed_same_key]

/-! ## Claims -/

/-- C1: for every request and every guard with minimum role `R`, whenever
token extraction succeeded and loaded user `u`, the guard admits exactly
when `R ≤ u.role` — and on admission the wrapped handler receives `u`'s
record — while a user with role strictly below `R` is rejected as
unauthorized even though the token was valid. -/
theorem guard_admits_iff_role_ge (R : UserRole) (st : State)
    (req : HttpRequest) (u : UserData)
    (h : get_auth_data st req = .ok u) :
    (define_auth R st req = .ok u ↔ R ≤ u.role) ∧
    (u.role < R →
      define_auth R st req = .error MessageResponse.unauthorized_error) := by
  rw [define_auth_eq_of_auth_ok R st req u h]
  by_cases hlt : u.role < R
  · rw [if_pos hlt]
    refine ⟨⟨fun hcontra => absurd hcontra (by simp), fun hle => ?_⟩,
      fun _ => rfl⟩
    exact absurd hlt ((UserRole.not_lt_iff u.role R).mpr hle)
  · rw [if_neg hlt]
    exact ⟨⟨fun _ => (UserRole.not_lt_iff u.role R).mp hlt,
      fun _ => rfl⟩, fun hcontra => absurd hcontra hlt⟩

/-- Witness for C1 at a concrete state, request and user. -/
theorem guard_admits_iff_role_ge_witness :
    get_auth_data exSt exReq = .ok exU ∧
    ((define_auth .user exSt exReq = .ok exU ↔ UserRole.user ≤ exU.role) ∧
     (exU.role < .user →
       define_auth .user exSt exReq =
         .error MessageResponse.unauthorized_error)) :=
  ⟨by decide, guard_admits_iff_role_ge .user exSt exReq exU (by decide)⟩

/-- C8: signing claims (any id, issuer, expiration timestamp) with key `K`
and verifying with the same `K` yields back exactly the subject
`id.to_string()` and the expiration `timestamp as u64` that were signed;
verifying the token with any different key fails. -/
theorem jwt_sign_verify_round_trip (id : Int) (iss : String) (ts : Int)
    (K Kd : String) (hne : Kd ≠ K) :
    ∃ tok, create_jwt_string id iss ts K = .ok tok ∧
      verify_with_key tok K =
        .ok ⟨some iss, some (toString id),
          some ((ts % (2 ^ 64 : Int)).toNat)⟩ ∧
      verify_with_key tok Kd = .error () := by
  refine ⟨_, rfl, verify_signed_same_key _ _, ?_⟩
  simp only [verify_with_key]
  rw [if_neg (fun h => hne h.symm)]

/-- Witness for C8 at concrete claims and keys. -/
theorem jwt_sign_verify_round_trip_witness :
    ("k2" : String) ≠ "k" ∧
    ∃ tok, create_jwt_string 1 "localhost" 7 "k" = .ok tok ∧
      verify_with_key tok "k" =
        .ok ⟨some "localhost", some (toString (1 : Int)),
          some (((7 : Int) % (2 ^ 64 : Int)).toNat)⟩ ∧
      verify_with_key tok "k2" = .error () :=
  ⟨by decide, jwt_sign_verify_round_trip 1 "localhost" 7 "k" "k2" (by decide)⟩

/-- C10: on every path of the login handler, the datastore effect trace is
exactly one read — the lookup by the submitted email — and nothing else:
no write, no second read, no revocation-list access; and the traced
handler computes the same response as the plain one. -/
theorem login_single_read_no_writes (st : State)
    (fv : String → String → Except Unit Bool) (now : Int)
    (d : BasicAuthForm) :
    basicTrace st fv now d =
      (basic st fv now d, [DbCall.readByEmail d.email]) := by
  unfold basicTrace basic
  cases hm : st.database.get_user_by_email d.email with
  | error e => rfl
  | ok u =>
    cases hv : fv u.password d.password with
    | error e => simp [hv]
    | ok m => cases m <;> simp [hv, create_jwt_string]

/-- On a found user and a matching password, the login handler's response
is exactly: status 200, login message, and the signed-token cookie with
the attributes set in the source. -/
theorem basic_success_eq (st : State)
    (fv : String → String → Except Unit Bool) (now : Int)
    (d : BasicAuthForm) (u : UserData)
    (h1 : st.database.get_user_by_email d.email = .ok u)
    (h2 : fv u.password d.password = .ok true) :
    basic st fv now d =
      { status := 200
        message := "You have logged in"
        cookie := some
          { name := "auth-token"
            value := .signed
              ⟨some "localhost", some (toString u.id),
                some (((now + 604800) % (2 ^ 64 : Int)).toNat)⟩ st.jwt_key
            secure := false
            http_only := true
            path := "/"
            expires := now + 604800 } } := by
  unfold basic
  rw [h1]
  simp [h2, create_jwt_string]

/-- The wrapped expiration written by the success path is the plain sum
`now + 604800` whenever that sum is a representable u64. -/
theorem expire_cast_eq (now : Int) (h3 : 0 ≤ now)
    (h4 : now + 604800 < 2 ^ 64) :
    ((((now + 604800) % (2 ^ 64 : Int)).toNat : Int)) = now + 604800 := by
  rw [Int.emod_eq_of_lt (by omega) h4]
  exact Int.toNat_of_nonneg (by omega)

/-- C2: on a correct (email, password) pair, login answers 200 and sets a
cookie named `auth-token` whose token, decoded with the process key,
carries subject = the user's id as a decimal string and expiration =
issuance time + exactly 604800 seconds. -/
theorem login_success_sets_week_token (st : State)
    (fv : String → String → Except Unit Bool) (now : Int)
    (d : BasicAuthForm) (u : UserData)
    (h1 : st.database.get_user_by_email d.email = .ok u)
    (h2 : fv u.password d.password = .ok true)
    (h3 : 0 ≤ now) (h4 : now + 604800 < 2 ^ 64) :
    (basic st fv now d).status = 200 ∧
    ∃ c cl e, (basic st fv now d).cookie = some c ∧
      c.name = "auth-token" ∧
      verify_with_key c.value st.jwt_key = .ok cl ∧
      cl.subject = some (toString u.id) ∧
      cl.expiration = some e ∧ (e : Int) = now + 604800 := by
  rw [basic_success_eq st fv now d u h1 h2]
  refine ⟨rfl, _, _, _, rfl, rfl, verify_signed_same_key _ _, rfl, rfl, ?_⟩
  exact expire_cast_eq now h3 h4

/-- Witness for C2 at a concrete state, verifier and form, at time 0. -/
theorem login_success_sets_week_token_witness :
    exLoginSt.database.get_user_by_email exForm.email = .ok exU ∧
    fvTrue exU.password exForm.password = .ok true ∧
    (0 : Int) ≤ 0 ∧ (0 : Int) + 604800 < 2 ^ 64 ∧
    ((basic exLoginSt fvTrue 0 exForm).status = 200 ∧
     ∃ c cl e, (basic exLoginSt fvTrue 0 exForm).cookie = some c ∧
       c.name = "auth-token" ∧
       verify_with_key c.value exLoginSt.jwt_key = .ok cl ∧
       cl.subject = some (toString exU.id) ∧
       cl.expiration = some e ∧ (e : Int) = (0 : Int) + 604800) :=
  ⟨rfl, rfl, by decide, by decide,
    login_success_sets_week_token exLoginSt fvTrue 0 exForm exU rfl rfl
      (by decide) (by decide)⟩

/-- C3: a login against a nonexistent email and a login against an
existing email with a wrong password produce the identical response —
status 400, body "Invalid credentials provided!", no cookie — so the two
failure causes are indistinguishable to the caller. -/
theorem login_failures_indistinguishable (st st2 : State)
    (fv fv2 : String → String → Except Unit Bool) (now now2 : Int)
    (d d2 : BasicAuthForm) (u : UserData)
    (h1 : st.database.get_user_by_email d.email = .error ())
    (h2 : st2.database.get_user_by_email d2.email = .ok u)
    (h3 : fv2 u.password d2.password = .ok false) :
    basic st fv now d = ⟨400, "Invalid credentials provided!", none⟩ ∧
    basic st2 fv2 now2 d2 = ⟨400, "Invalid credentials provided!", none⟩ := by
  constructor
  · unfold basic
    rw [h1]
    rfl
  · unfold basic
    rw [h2]
    simp [h3, MessageResponse.new, MessageResponse.http_response]

/-- Witness for C3: unknown email on one state, wrong password on the
other, same concrete 400 response. -/
theorem login_failures_indistinguishable_witness :
    exSt.database.get_user_by_email exForm.email = .error () ∧
    exLoginSt.database.get_user_by_email exForm.email = .ok exU ∧
    fvFalse exU.password exForm.password = .ok false ∧
    (basic exSt fvTrue 0 exForm =
       ⟨400, "Invalid credentials provided!", none⟩ ∧
     basic exLoginSt fvFalse 0 exForm =
       ⟨400, "Invalid credentials provided!", none⟩) :=
  ⟨rfl, rfl, rfl,
    login_failures_indistinguishable exSt exLoginSt fvTrue fvFalse 0 0
      exForm exForm exU rfl rfl rfl⟩

/-- C5: when the argon2 verification primitive itself errors on the
stored hash, login answers the 500 internal error response, not the 400
invalid-credentials one. -/
theorem login_hash_error_is_internal (st : State)
    (fv : String → String → Except Unit Bool) (now : Int)
    (d : BasicAuthForm) (u : UserData)
    (h1 : st.database.get_user_by_email d.email = .ok u)
    (h2 : fv u.password d.password = .error ()) :
    basic st fv now d = ⟨500, "Internal Server Error", none⟩ ∧
    (basic st fv now d).status ≠ 400 := by
  have hb : basic st fv now d = ⟨500, "Internal Server Error", none⟩ := by
    unfold basic
    rw [h1]
    simp [h2, MessageResponse.internal_server_error,
      MessageResponse.http_response]
  refine ⟨hb, ?_⟩
  rw [hb]
  decide

/-- Witness for C5 at a concrete erroring verifier. -/
theorem login_hash_error_is_internal_witness :
    exLoginSt.database.get_user_by_email exForm.email = .ok exU ∧
    fvErr exU.password exForm.password = .error () ∧
    (basic exLoginSt fvErr 0 exForm =
       ⟨500, "Internal Server Error", none⟩ ∧
     (basic exLoginSt fvErr 0 exForm).status ≠ 400) :=
  ⟨rfl, rfl,
    login_hash_error_is_internal exLoginSt fvErr 0 exForm exU rfl rfl⟩

/-- C9: the cookie attached by a successful login is named `auth-token`,
is HTTP-only, has the secure flag disabled, has root path `/`, and its
Expires attribute equals the token's decoded expiration timestamp. -/
theorem login_cookie_attributes (st : State)
    (fv : String → String → Except Unit Bool) (now : Int)
    (d : BasicAuthForm) (u : UserData)
    (h1 : st.database.get_user_by_email d.email = .ok u)
    (h2 : fv u.password d.password = .ok true)
    (h3 : 0 ≤ now) (h4 : now + 604800 < 2 ^ 64) :
    ∃ c, (basic st fv now d).cookie = some c ∧
      c.name = "auth-token" ∧ c.http_only = true ∧ c.secure = false ∧
      c.path = "/" ∧
      ∃ cl e, verify_with_key c.value st.jwt_key = .ok cl ∧
        cl.expiration = some e ∧ (e : Int) = c.expires := by
  rw [basic_success_eq st fv now d u h1 h2]
  refine ⟨_, rfl, rfl, rfl, rfl, rfl, _, _,
    verify_signed_same_key _ _, rfl, ?_⟩
  exact expire_cast_eq now h3 h4

/-- Witness for C9 at the concrete success fixture. -/
theorem login_cookie_attributes_witness :
    exLoginSt.database.get_user_by_email exForm.email = .ok exU ∧
    fvTrue exU.password exForm.password = .ok true ∧
    (0 : Int) ≤ 0 ∧ (0 : Int) + 604800 < 2 ^ 64 ∧
    (∃ c, (basic exLoginSt fvTrue 0 exForm).cookie = some c ∧
      c.name = "auth-token" ∧ c.http_only = true ∧ c.secure = false ∧
      c.path = "/" ∧
      ∃ cl e, verify_with_key c.value exLoginSt.jwt_key = .ok cl ∧
        cl.expiration = some e ∧ (e : Int) = c.expires) :=
  ⟨rfl, rfl, by decide, by decide,
    login_cookie_attributes exLoginSt fvTrue 0 exForm exU rfl rfl
      (by decide) (by decide)⟩

/-- C6: a guarded request whose `auth-token` cookie is missing, or whose
cookie fails token verification against the process key, is rejected by
`get_auth_data` — and hence by every generated guard — with the 401
unauthorized error, never the 500 internal one. -/
theorem guard_missing_or_invalid_token_unauthorized (st : State)
    (req : HttpRequest) (R : UserRole)
    (h : req.cookie "auth-token" = none ∨
      ∃ v, req.cookie "auth-token" = some v ∧
        verify_with_key v st.jwt_key = .error ()) :
    get_auth_data st req = .error MessageResponse.unauthorized_error ∧
    define_auth R st req = .error MessageResponse.unauthorized_error ∧
    MessageResponse.unauthorized_error.code = 401 ∧
    MessageResponse.unauthorized_error.code ≠ 500 := by
  have hg : get_auth_data st req =
      .error MessageResponse.unauthorized_error := by
    unfold get_auth_data
    rcases h with h | ⟨v, hv, hverr⟩
    · rw [h]
    · rw [hv]
      simp [hverr]
  refine ⟨hg, ?_, by decide, by decide⟩
  unfold define_auth
  rw [hg]

/-- Witness for C6 at a concrete cookieless request. -/
theorem guard_missing_or_invalid_token_unauthorized_witness :
    (exReqNoCookie.cookie "auth-token" = none ∨
      ∃ v, exReqNoCookie.cookie "auth-token" = some v ∧
        verify_with_key v exSt.jwt_key = .error ()) ∧
    (get_auth_data exSt exReqNoCookie =
       .error MessageResponse.unauthorized_error ∧
     define_auth .user exSt exReqNoCookie =
       .error MessageResponse.unauthorized_error ∧
     MessageResponse.unauthorized_error.code = 401 ∧
     MessageResponse.unauthorized_error.code ≠ 500) :=
  ⟨Or.inl rfl,
    guard_missing_or_invalid_token_unauthorized exSt exReqNoCookie .user
      (Or.inl rfl)⟩

/-- C7: a validly-signed token whose subject is missing, or does not
parse as a user id, or whose user-record lookup fails, makes
`get_auth_data` reject with the 500 internal error, which is
distinguished from the 401 unauthorized error. -/
theorem guard_signed_token_internal_error (st : State) (req : HttpRequest)
    (claims : RegisteredClaims)
    (hc : req.cookie "auth-token" = some (.signed claims st.jwt_key))
    (h : claims.subject = none ∨
      (∃ s, claims.subject = some s ∧ parseI32 s = .error ()) ∨
      (∃ s i, claims.subject = some s ∧ parseI32 s = .ok i ∧
        st.database.get_user_by_id i = .error ())) :
    get_auth_data st req = .error MessageResponse.internal_server_error ∧
    MessageResponse.internal_server_error.code = 500 ∧
    MessageResponse.internal_server_error.code ≠ 401 := by
  refine ⟨?_, by decide, by decide⟩
  rw [get_auth_data_signed_eq st req claims hc]
  unfold authLookup
  rcases h with h0 | ⟨s, hs, hp⟩ | ⟨s, i, hs, hp, hd⟩
  · simp [h0]
  · simp [hs, hp]
  · simp [hs, hp, hd]

/-- Witness for C7: a token signed with the right key whose subject is
not a decimal user id. -/
theorem guard_signed_token_internal_error_witness :
    (⟨fun _ =>
        some (.signed ⟨some "localhost", some "nope", some 7⟩ "k")⟩ :
      HttpRequest).cookie "auth-token" =
      some (.signed ⟨some "localhost", some "nope", some 7⟩ exSt.jwt_key) ∧
    ((⟨some "localhost", some "nope", some 7⟩ :
        RegisteredClaims).subject = none ∨
      (∃ s, (⟨some "localhost", some "nope", some 7⟩ :
          RegisteredClaims).subject = some s ∧ parseI32 s = .error ()) ∨
      (∃ s i, (⟨some "localhost", some "nope", some 7⟩ :
          RegisteredClaims).subject = some s ∧ parseI32 s = .ok i ∧
        exSt.database.get_user_by_id i = .error ())) ∧
    (get_auth_data exSt
        ⟨fun _ =>
          some (.signed ⟨some "localhost", some "nope", some 7⟩ "k")⟩ =
       .error MessageResponse.internal_server_error ∧
     MessageResponse.internal_server_error.code = 500 ∧
     MessageResponse.internal_server_error.code ≠ 401) :=
  ⟨rfl, Or.inr (Or.inl ⟨"nope", rfl, by rfl⟩),
    guard_signed_token_internal_error exSt
      ⟨fun _ =>
        some (.signed ⟨some "localhost", some "nope", some 7⟩ "k")⟩
      ⟨some "localhost", some "nope", some 7⟩ rfl
      (Or.inr (Or.inl ⟨"nope", rfl, by rfl⟩))⟩

/-- C4: the guard never consults the expiration claim: two requests whose
validly-signed tokens differ only in expiration produce the same
`get_auth_data` outcome, and a validly-signed token with an arbitrary —
in particular past — expiration is admitted whenever the subject parses,
the user loads and the role check passes. -/
theorem guard_ignores_expiration (st : State) (req req2 : HttpRequest)
    (iss : Option String) (sub : Option String) (e e2 : Option Nat)
    (hc : req.cookie "auth-token" =
      some (.signed ⟨iss, sub, e⟩ st.jwt_key))
    (hc2 : req2.cookie "auth-token" =
      some (.signed ⟨iss, sub, e2⟩ st.jwt_key)) :
    get_auth_data st req = get_auth_data st req2 ∧
    (∀ s i u R, sub = some s → parseI32 s = .ok i →
      st.database.get_user_by_id i = .ok u → R ≤ u.role →
      define_auth R st req = .ok u) := by
  constructor
  · rw [get_auth_data_signed_eq st req ⟨iss, sub, e⟩ hc,
      get_auth_data_signed_eq st req2 ⟨iss, sub, e2⟩ hc2]
  · intro s i u R hs hp hd hr
    have hok : get_auth_data st req = .ok u := by
      rw [get_auth_data_signed_eq st req ⟨iss, sub, e⟩ hc]
      unfold authLookup
      simp [hs, hp, hd]
    rw [define_auth_eq_of_auth_ok R st req u hok,
      if_neg ((UserRole.not_lt_iff u.role R).mpr hr)]

/-- Witness for C4: `exReq` and `exReq2` differ only in expiration. -/
theorem guard_ignores_expiration_witness :
    exReq.cookie "auth-token" =
      some (.signed ⟨some "localhost", some "1", some 7⟩ exSt.jwt_key) ∧
    exReq2.cookie "auth-token" =
      some (.signed ⟨some "localhost", some "1", some 3⟩ exSt.jwt_key) ∧
    (get_auth_data exSt exReq = get_auth_data exSt exReq2 ∧
     (∀ s i u R, (some "1" : Option String) = some s →
       parseI32 s = .ok i → exSt.database.get_user_by_id i = .ok u →
       R ≤ u.role → define_auth R exSt exReq = .ok u)) :=
  ⟨rfl, rfl,
    guard_ignores_expiration exSt exReq exReq2 (some "localhost")
      (some "1") (some 7) (some 3) rfl rfl⟩

end Kawaii
